import Mathlib

/-!
Shallow embedding of the verifyeye client (three front-end flows:
text generation in `src/public/generate.js`, AI-text detection in
`src/unnamed/part_000`, summarization in `src/unnamed/part_001`).

Each flow is modelled as a pure function from the form inputs, the
outcome of the single HTTP call, and the prior DOM state, to the new
DOM state plus the (optional) dispatched request and the audit-write
outcome.  JavaScript strings are Lean `String` (`jsTrim`, `.length`,
`.take` stand in for `trim()`, `.length`, `substring(0, n)`), JSON
numbers that the code rounds or formats are `Rat`, and integer counts
rendered verbatim are `Int` rendered with `toString` as JS does for
integral numbers.
-/

set_option maxRecDepth 8000

/-- JavaScript `String.prototype.trim`: drop leading and trailing
whitespace characters. -/
def jsTrim (s : String) : String :=
  ⟨((s.data.dropWhile Char.isWhitespace).reverse.dropWhile Char.isWhitespace).reverse⟩

/-- JavaScript `Math.round`: round half toward positive infinity. -/
def jsRound (q : Rat) : Int := (q + 1/2).floor

/-- Render a nonnegative integer of hundredths as a fixed two-decimal string. -/
def toFixed2Pad (n : Nat) : String :=
  toString (n / 100) ++ "." ++
    (if n % 100 < 10 then "0" ++ toString (n % 100) else toString (n % 100))

/-- JavaScript `Number.prototype.toFixed(2)` on a rational (ECMA-262:
negate first when negative, then round ties to the larger candidate). -/
def toFixed2 (q : Rat) : String :=
  if q < 0 then "-" ++ toFixed2Pad ((-q) * 100 + 1/2).floor.toNat
  else toFixed2Pad ((q * 100 + 1/2)).floor.toNat

/-- JavaScript truthiness of an optional numeric field (`if (data.perplexity)`):
absent and zero are falsy. -/
def numTruthy : Option Rat → Bool
  | none => false
  | some v => v != 0

/-- Firestore server-assigned timestamp sentinel
(`firebase.firestore.FieldValue.serverTimestamp()`). -/
inductive Timestamp where
  | serverTimestamp
deriving DecidableEq, Repr

/-- Outcome of the single awaited `fetch`: a parsed JSON body when
`response.ok`, `httpError` when `response.ok` is false (the handler throws
and lands in `catch`), `netError` when `fetch` itself rejects. -/
inductive FetchOutcome (α : Type) where
  | success (data : α)
  | httpError
  | netError
deriving DecidableEq, Repr

namespace Generate

/-- Response fields consumed by `displayResults` in generate.js. -/
structure ResponseData where
  generatedText : String
  wordCount : Int
  tokensUsed : Int
deriving DecidableEq, Repr

/-- Form control values read by `performGeneration`.  `maxLength` and
`temperature` stand for `parseInt(lengthSelect.value)` and
`parseFloat(tempSlider.value)` applied to the select/slider values. -/
structure Inputs where
  promptRaw : String
  tone : String
  maxLength : Int
  temperature : Rat
deriving DecidableEq, Repr

/-- JSON body POSTed to `/generateText`. -/
structure Request where
  prompt : String
  tone : String
  maxLength : Int
  temperature : Rat
deriving DecidableEq, Repr

/-- The DOM state touched by generate.js handlers. -/
structure DomState where
  errorText : String
  errorShown : Bool
  resultsShown : Bool
  loadingDisplay : String
  generateBtnDisabled : Bool
  regenerateBtnDisabled : Bool
  generatedText : String
  wordCount : String
  tokensUsed : String
  copyBtnText : String
  copyBtnCopied : Bool
deriving DecidableEq, Repr

/-- `showError(message)` in generate.js. -/
def showError (message : String) (s : DomState) : DomState :=
  { s with errorText := message, errorShown := true }

/-- `hideError()` in generate.js. -/
def hideError (s : DomState) : DomState :=
  { s with errorShown := false }

/-- `displayResults(data)` in generate.js. -/
def displayResults (data : ResponseData) (s : DomState) : DomState :=
  { s with generatedText := data.generatedText,
           wordCount := toString data.wordCount,
           tokensUsed := toString data.tokensUsed,
           resultsShown := true }

/-- The audit record `saveToFirestore` adds to the `results` collection. -/
structure AuditRecord where
  collection : String
  type : String
  input : String
  output : ResponseData
  timestamp : Timestamp
deriving DecidableEq, Repr

/-- Outcome of the best-effort audit write: skipped when the firebase
client is absent, otherwise stored, or rejected with the error only
logged to the console (`.catch(console.error)`). -/
inductive AuditOutcome where
  | notAttempted
  | stored (r : AuditRecord)
  | failedLogged (r : AuditRecord)
deriving DecidableEq, Repr

/-- The record carried by an attempted audit write, if any. -/
def AuditOutcome.record : AuditOutcome → Option AuditRecord
  | .notAttempted => none
  | .stored r => some r
  | .failedLogged r => some r

/-- `saveToFirestore(prompt, result)` in generate.js: guarded by the
firebase presence check; a write failure is swallowed. -/
def saveToFirestore (firebaseAvailable writeOk : Bool) (prompt : String)
    (result : ResponseData) : AuditOutcome :=
  if firebaseAvailable then
    let r : AuditRecord :=
      ⟨"results", "generation", prompt, result, .serverTimestamp⟩
    if writeOk then .stored r else .failedLogged r
  else .notAttempted

/-- Everything observable from one run of `performGeneration`. -/
structure RunResult where
  dom : DomState
  request : Option Request
  audit : AuditOutcome
deriving DecidableEq, Repr

/-- `performGeneration()` in generate.js: trim, validate, dispatch,
render or show the generic error, and restore loading/buttons in
`finally`. -/
def performGeneration (inp : Inputs) (outcome : FetchOutcome ResponseData)
    (firebaseAvailable writeOk : Bool) (s : DomState) : RunResult :=
  let prompt := jsTrim inp.promptRaw
  if prompt = "" then
    ⟨showError "Please enter a prompt" s, none, .notAttempted⟩
  else if prompt.length < 10 then
    ⟨showError "Prompt must be at least 10 characters" s, none, .notAttempted⟩
  else
    let s1 : DomState :=
      { hideError s with resultsShown := false, loadingDisplay := "block",
                         generateBtnDisabled := true, regenerateBtnDisabled := true }
    let req : Request := ⟨prompt, inp.tone, inp.maxLength, inp.temperature⟩
    let fin : DomState → DomState := fun s2 =>
      { s2 with loadingDisplay := "none", generateBtnDisabled := false,
                regenerateBtnDisabled := false }
    match outcome with
    | .success data =>
        ⟨fin (displayResults data s1), some req,
         saveToFirestore firebaseAvailable writeOk prompt data⟩
    | .httpError =>
        ⟨fin (showError "Failed to generate text. Please try again." s1),
         some req, .notAttempted⟩
    | .netError =>
        ⟨fin (showError "Failed to generate text. Please try again." s1),
         some req, .notAttempted⟩

/-- The copy-button click handler: attempts the clipboard write of the
displayed generated text; on success swaps the label and style (the
2000 ms timer restoring them is `copyTimerFired`). -/
def copyClick (clipOk : Bool) (s : DomState) : DomState × Option String :=
  if clipOk then
    ({ s with copyBtnText := "✓ Copied!", copyBtnCopied := true },
     some s.generatedText)
  else (s, none)

/-- The `setTimeout` callback restoring the copy button after 2000 ms. -/
def copyTimerFired (s : DomState) : DomState :=
  { s with copyBtnText := "Copy Text", copyBtnCopied := false }

end Generate

namespace Detect

/-- Response fields consumed by `displayResults` in the detection script. -/
structure ResponseData where
  confidence : Rat
  isAI : Bool
  perplexity : Option Rat
  burstiness : Option Rat
deriving DecidableEq, Repr

/-- JSON body POSTed to `/detectAIText`. -/
structure Request where
  text : String
deriving DecidableEq, Repr

/-- A selected file as the `change` handler sees it: its MIME type and
its text contents. -/
structure JsFile where
  type : String
  content : String
deriving DecidableEq, Repr

/-- The DOM state touched by the detection script's handlers. -/
structure DomState where
  errorText : String
  errorShown : Bool
  resultsShown : Bool
  loadingDisplay : String
  detectBtnDisabled : Bool
  textValue : String
  charCount : String
  confidenceValue : String
  verdictText : String
  verdictColor : String
  confidenceFillWidth : String
  confidenceFillText : String
  confidenceFillBackground : String
  analysisDetails : String
  copyBtnText : String
  copyBtnCopied : Bool
deriving DecidableEq, Repr

/-- `showError(message)` in the detection script. -/
def showError (message : String) (s : DomState) : DomState :=
  { s with errorText := message, errorShown := true }

/-- `hideError()` in the detection script. -/
def hideError (s : DomState) : DomState :=
  { s with errorShown := false }

/-- The confidence-bar colour chosen by `displayResults` from the
rounded confidence: green below 30, yellow below 70, red otherwise. -/
def colorOf (confidence : Int) : String :=
  if confidence < 30 then "#4ade80"
  else if confidence < 70 then "#fbbf24"
  else "#ef4444"

/-- The analysis-details text assembled by `displayResults` (optional
scores are appended only when truthy, i.e. present and nonzero). -/
def detailsString (data : ResponseData) : String :=
  let confidence := jsRound data.confidence
  let d1 := "Detection Confidence: " ++ toString confidence ++ "%\n\n"
  let d2 := d1 ++ "Verdict: " ++
    (if data.isAI then "This text appears to be AI-generated"
     else "This text appears to be human-written") ++ "\n\n"
  let d3 := if numTruthy data.perplexity then
      d2 ++ "Perplexity Score: " ++ toFixed2 (data.perplexity.getD 0) ++ "\n"
    else d2
  let d4 := if numTruthy data.burstiness then
      d3 ++ "Burstiness Score: " ++ toFixed2 (data.burstiness.getD 0) ++ "\n"
    else d3
  d4 ++ "\nNote: This is a probabilistic analysis and may not be 100% accurate."

/-- `displayResults(data)` in the detection script. -/
def displayResults (data : ResponseData) (s : DomState) : DomState :=
  let confidence := jsRound data.confidence
  { s with confidenceValue := toString confidence ++ "%",
           verdictText := if data.isAI then "🤖 AI Generated" else "👤 Human Written",
           verdictColor := if data.isAI then "#ef4444" else "#4ade80",
           confidenceFillWidth := toString confidence ++ "%",
           confidenceFillText := toString confidence ++ "%",
           confidenceFillBackground := colorOf confidence,
           analysisDetails := detailsString data,
           resultsShown := true }

/-- The audit record the detection `saveToFirestore` adds to `results`. -/
structure AuditRecord where
  collection : String
  type : String
  input : String
  output : ResponseData
  timestamp : Timestamp
deriving DecidableEq, Repr

/-- Outcome of the best-effort audit write in the detection script. -/
inductive AuditOutcome where
  | notAttempted
  | stored (r : AuditRecord)
  | failedLogged (r : AuditRecord)
deriving DecidableEq, Repr

/-- The record carried by an attempted audit write, if any. -/
def AuditOutcome.record : AuditOutcome → Option AuditRecord
  | .notAttempted => none
  | .stored r => some r
  | .failedLogged r => some r

/-- `saveToFirestore(text, result)` in the detection script: the input
is truncated to its first 500 characters; a write failure is only
logged to the console. -/
def saveToFirestore (firebaseAvailable writeOk : Bool) (text : String)
    (result : ResponseData) : AuditOutcome :=
  if firebaseAvailable then
    let r : AuditRecord :=
      ⟨"results", "detection", text.take 500, result, .serverTimestamp⟩
    if writeOk then .stored r else .failedLogged r
  else .notAttempted

/-- Everything observable from one run of the detect-button handler. -/
structure RunResult where
  dom : DomState
  request : Option Request
  audit : AuditOutcome
deriving DecidableEq, Repr

/-- The `detectBtn` click handler: trim, validate (50-character
minimum), dispatch, render or show the generic error, and restore
loading/button in `finally`. -/
def detectClick (outcome : FetchOutcome ResponseData)
    (firebaseAvailable writeOk : Bool) (s : DomState) : RunResult :=
  let text := jsTrim s.textValue
  if text = "" then
    ⟨showError "Please enter some text to analyze" s, none, .notAttempted⟩
  else if text.length < 50 then
    ⟨showError "Text must be at least 50 characters long" s, none, .notAttempted⟩
  else
    let s1 : DomState :=
      { hideError s with resultsShown := false, loadingDisplay := "block",
                         detectBtnDisabled := true }
    let req : Request := ⟨text⟩
    let fin : DomState → DomState := fun s2 =>
      { s2 with loadingDisplay := "none", detectBtnDisabled := false }
    match outcome with
    | .success data =>
        ⟨fin (displayResults data s1), some req,
         saveToFirestore firebaseAvailable writeOk text data⟩
    | .httpError =>
        ⟨fin (showError "An error occurred while analyzing the text. Please try again." s1),
         some req, .notAttempted⟩
    | .netError =>
        ⟨fin (showError "An error occurred while analyzing the text. Please try again." s1),
         some req, .notAttempted⟩

/-- The `fileUpload` change handler: only a `text/plain` file is read
into the text area (with the character counter updated); anything else
gets the inline error. -/
def fileChange (f : Option JsFile) (s : DomState) : DomState :=
  match f with
  | some file =>
      if file.type = "text/plain" then
        { s with textValue := file.content,
                 charCount := toString file.content.length }
      else showError "Please upload a .txt file" s
  | none => showError "Please upload a .txt file" s

/-- The copy-button click handler: writes a fixed heading followed by
the displayed analysis details to the clipboard; on success swaps the
label and style until `copyTimerFired`. -/
def copyClick (clipOk : Bool) (s : DomState) : DomState × Option String :=
  let resultText := "AI Detection Results\n\n" ++ s.analysisDetails
  if clipOk then
    ({ s with copyBtnText := "✓ Copied!", copyBtnCopied := true }, some resultText)
  else (s, none)

/-- The `setTimeout` callback restoring the copy button after 2000 ms. -/
def copyTimerFired (s : DomState) : DomState :=
  { s with copyBtnText := "Copy Results", copyBtnCopied := false }

end Detect

namespace Summarize

/-- Response fields consumed by `displayResults` in the summarization
script. -/
structure ResponseData where
  summary : String
  originalWords : Int
  summaryWords : Int
  compressionRatio : Rat
deriving DecidableEq, Repr

/-- Form control values read by the summarize handler.  `ratio` stands
for `parseFloat(lengthRatio.value)`. -/
structure Inputs where
  textRaw : String
  ratio : Rat
  format : String
deriving DecidableEq, Repr

/-- JSON body POSTed to `/summarizeText`. -/
structure Request where
  text : String
  ratio : Rat
  format : String
deriving DecidableEq, Repr

/-- The DOM state touched by the summarization script's handlers. -/
structure DomState where
  errorText : String
  errorShown : Bool
  resultsShown : Bool
  loadingDisplay : String
  summarizeBtnDisabled : Bool
  summaryResult : String
  originalWords : String
  summaryWords : String
  compressionRatioText : String
  copyBtnText : String
  copyBtnCopied : Bool
deriving DecidableEq, Repr

/-- `showError(message)` in the summarization script. -/
def showError (message : String) (s : DomState) : DomState :=
  { s with errorText := message, errorShown := true }

/-- `hideError()` in the summarization script. -/
def hideError (s : DomState) : DomState :=
  { s with errorShown := false }

/-- `displayResults(data)` in the summarization script: the compression
ratio is shown as `Math.round(compressionRatio * 100)` with a percent
sign. -/
def displayResults (data : ResponseData) (s : DomState) : DomState :=
  { s with summaryResult := data.summary,
           originalWords := toString data.originalWords,
           summaryWords := toString data.summaryWords,
           compressionRatioText := toString (jsRound (data.compressionRatio * 100)) ++ "%",
           resultsShown := true }

/-- The audit record the summarization `saveToFirestore` adds to
`results`. -/
structure AuditRecord where
  collection : String
  type : String
  input : String
  output : ResponseData
  timestamp : Timestamp
deriving DecidableEq, Repr

/-- Outcome of the best-effort audit write in the summarization script. -/
inductive AuditOutcome where
  | notAttempted
  | stored (r : AuditRecord)
  | failedLogged (r : AuditRecord)
deriving DecidableEq, Repr

/-- The record carried by an attempted audit write, if any. -/
def AuditOutcome.record : AuditOutcome → Option AuditRecord
  | .notAttempted => none
  | .stored r => some r
  | .failedLogged r => some r

/-- `saveToFirestore(text, result)` in the summarization script. -/
def saveToFirestore (firebaseAvailable writeOk : Bool) (text : String)
    (result : ResponseData) : AuditOutcome :=
  if firebaseAvailable then
    let r : AuditRecord :=
      ⟨"results", "summary", text.take 500, result, .serverTimestamp⟩
    if writeOk then .stored r else .failedLogged r
  else .notAttempted

/-- Everything observable from one run of the summarize-button handler. -/
structure RunResult where
  dom : DomState
  request : Option Request
  audit : AuditOutcome
deriving DecidableEq, Repr

/-- The `summarizeBtn` click handler: trim, validate (100-character
minimum), dispatch, render or show the generic error, and restore
loading/button in `finally`. -/
def summarizeClick (inp : Inputs) (outcome : FetchOutcome ResponseData)
    (firebaseAvailable writeOk : Bool) (s : DomState) : RunResult :=
  let text := jsTrim inp.textRaw
  if text = "" then
    ⟨showError "Please enter text to summarize" s, none, .notAttempted⟩
  else if text.length < 100 then
    ⟨showError "Text must be at least 100 characters for meaningful summarization" s,
     none, .notAttempted⟩
  else
    let s1 : DomState :=
      { hideError s with resultsShown := false, loadingDisplay := "block",
                         summarizeBtnDisabled := true }
    let req : Request := ⟨text, inp.ratio, inp.format⟩
    let fin : DomState → DomState := fun s2 =>
      { s2 with loadingDisplay := "none", summarizeBtnDisabled := false }
    match outcome with
    | .success data =>
        ⟨fin (displayResults data s1), some req,
         saveToFirestore firebaseAvailable writeOk text data⟩
    | .httpError =>
        ⟨fin (showError "Failed to generate summary. Please try again." s1),
         some req, .notAttempted⟩
    | .netError =>
        ⟨fin (showError "Failed to generate summary. Please try again." s1),
         some req, .notAttempted⟩

/-- The copy-button click handler: writes the displayed summary text to
the clipboard; on success swaps the label and style until
`copyTimerFired`. -/
def copyClick (clipOk : Bool) (s : DomState) : DomState × Option String :=
  if clipOk then
    ({ s with copyBtnText := "✓ Copied!", copyBtnCopied := true },
     some s.summaryResult)
  else (s, none)

/-- The `setTimeout` callback restoring the copy button after 2000 ms. -/
def copyTimerFired (s : DomState) : DomState :=
  { s with copyBtnText := "Copy Summary", copyBtnCopied := false }

end Summarize


/-! Concrete page states and inputs used by witnesses and counterexamples. -/

/-- A pristine generation page. -/
def genStart : Generate.DomState :=
  ⟨"", false, false, "none", false, false, "", "", "", "Copy Text", false⟩

/-- A generation page already showing a previous result. -/
def genStateShown : Generate.DomState :=
  ⟨"", false, true, "none", false, false, "an earlier poem", "3", "9", "Copy Text", false⟩

/-- A too-short prompt. -/
def genInputsShort : Generate.Inputs := ⟨"hi", "casual", 100, 0⟩

/-- A raw prompt of 13 characters whose trimmed form has only 2. -/
def genInputsPadded : Generate.Inputs := ⟨"   hi        ", "casual", 100, 0⟩

/-- A valid prompt surrounded by whitespace. -/
def genInputsOk : Generate.Inputs := ⟨"  Write a short poem  ", "neutral", 100, 0⟩

/-- A sample generation response. -/
def genData : Generate.ResponseData := ⟨"a fine poem", 3, 9⟩

/-- A pristine detection page. -/
def detectStart : Detect.DomState :=
  ⟨"", false, false, "none", false, "", "0", "", "", "", "", "", "", "",
   "Copy Results", false⟩

/-- A detection page whose text area holds too little text. -/
def detectStartShort : Detect.DomState := { detectStart with textValue := "brief" }

/-- A detection page whose text area passes the 50-character minimum. -/
def detectStartOk : Detect.DomState :=
  { detectStart with
      textValue := " This passage is long enough to satisfy the fifty character minimum. " }

/-- A detection page already showing analysis details. -/
def detectStateDisplayed : Detect.DomState :=
  { detectStart with analysisDetails := "Detection Confidence: 85%", resultsShown := true }

/-- A sample detection response. -/
def detectData : Detect.ResponseData := ⟨85, true, none, none⟩

/-- A pristine summarization page. -/
def sumStart : Summarize.DomState :=
  ⟨"", false, false, "none", false, "", "", "", "", "Copy Summary", false⟩

/-- A too-short summarization input. -/
def sumInputsShort : Summarize.Inputs := ⟨"too short", 1, "paragraph"⟩

/-- A summarization input passing the 100-character minimum. -/
def sumInputsOk : Summarize.Inputs :=
  ⟨" The quick brown fox jumps over the lazy dog while the patient grey owl watches from a branch above the quiet meadow at dusk. ",
   1, "paragraph"⟩

/-- A sample summarization response. -/
def sumData : Summarize.ResponseData := ⟨"a fox jumped", 24, 3, 0⟩


/-! Shared facts about validation. -/

/-- A trimmed input meeting a positive length minimum is nonempty. -/
theorem jsTrim_ne_empty_of_min {s : String} {n : Nat} (hn : 0 < n)
    (h : n ≤ (jsTrim s).length) : ¬(jsTrim s = "") := by
  intro he
  rw [he] at h
  have h0 : ("" : String).length = 0 := rfl
  omega

/-- C1: for every flow (generation, detection, summarization), whenever the
trimmed input is shorter than the flow's minimum (10, 50, 100 characters
respectively, the empty input included), the click handler shows the inline
validation error and dispatches no HTTP request. -/
theorem C1_short_input_blocks_submission :
    (∀ (inp : Generate.Inputs) (outcome : FetchOutcome Generate.ResponseData)
        (fa wok : Bool) (s : Generate.DomState),
        (jsTrim inp.promptRaw).length < 10 →
        (Generate.performGeneration inp outcome fa wok s).request = none ∧
        (Generate.performGeneration inp outcome fa wok s).dom.errorShown = true) ∧
    (∀ (outcome : FetchOutcome Detect.ResponseData) (fa wok : Bool)
        (s : Detect.DomState),
        (jsTrim s.textValue).length < 50 →
        (Detect.detectClick outcome fa wok s).request = none ∧
        (Detect.detectClick outcome fa wok s).dom.errorShown = true) ∧
    (∀ (inp : Summarize.Inputs) (outcome : FetchOutcome Summarize.ResponseData)
        (fa wok : Bool) (s : Summarize.DomState),
        (jsTrim inp.textRaw).length < 100 →
        (Summarize.summarizeClick inp outcome fa wok s).request = none ∧
        (Summarize.summarizeClick inp outcome fa wok s).dom.errorShown = true) := by
  refine ⟨?_, ?_, ?_⟩
  · intro inp outcome fa wok s h
    by_cases h1 : jsTrim inp.promptRaw = ""
    · simp [Generate.performGeneration, h1, Generate.showError]
    · simp [Generate.performGeneration, h1, h, Generate.showError]
  · intro outcome fa wok s h
    by_cases h1 : jsTrim s.textValue = ""
    · simp [Detect.detectClick, h1, Detect.showError]
    · simp [Detect.detectClick, h1, h, Detect.showError]
  · intro inp outcome fa wok s h
    by_cases h1 : jsTrim inp.textRaw = ""
    · simp [Summarize.summarizeClick, h1, Summarize.showError]
    · simp [Summarize.summarizeClick, h1, h, Summarize.showError]

/-- C1 witness: a 2-character prompt, a 5-character detection text and a
9-character summarization text are each rejected without a request. -/
theorem C1_short_input_blocks_submission_witness :
    ((Generate.performGeneration genInputsShort .httpError true true genStart).request = none ∧
     (Generate.performGeneration genInputsShort .httpError true true genStart).dom.errorShown = true) ∧
    ((Detect.detectClick .httpError true true detectStartShort).request = none ∧
     (Detect.detectClick .httpError true true detectStartShort).dom.errorShown = true) ∧
    ((Summarize.summarizeClick sumInputsShort .netError true true sumStart).request = none ∧
     (Summarize.summarizeClick sumInputsShort .netError true true sumStart).dom.errorShown = true) :=
  ⟨C1_short_input_blocks_submission.1 genInputsShort .httpError true true genStart (by decide),
   C1_short_input_blocks_submission.2.1 .httpError true true detectStartShort (by decide),
   C1_short_input_blocks_submission.2.2 sumInputsShort .netError true true sumStart (by decide)⟩

/-- C2 counterexample: with a previously shown results panel
(`genStateShown.resultsShown = true`), a valid prompt and a non-success
HTTP response, the results panel — a result display element — does not
keep its pre-submission state: the handler removes its `show` class
before the fetch and never restores it. -/
theorem C2_counterexample_results_panel_changes :
    (Generate.performGeneration genInputsOk .httpError true true
        genStateShown).dom.resultsShown ≠ genStateShown.resultsShown := by
  decide

/-- C2 (amended): for every flow, when the HTTP response is non-success the
generic error message is shown; the text contents of the named output
elements are unchanged from before the submission, but the results panel is
hidden when the submission starts and stays hidden (it does not keep a
previously visible state). -/
theorem C2_httpError_generic_message_and_outputs_unchanged :
    (∀ (inp : Generate.Inputs) (fa wok : Bool) (s : Generate.DomState),
        10 ≤ (jsTrim inp.promptRaw).length →
        (Generate.performGeneration inp .httpError fa wok s).dom.errorText =
          "Failed to generate text. Please try again." ∧
        (Generate.performGeneration inp .httpError fa wok s).dom.errorShown = true ∧
        (Generate.performGeneration inp .httpError fa wok s).dom.generatedText =
          s.generatedText ∧
        (Generate.performGeneration inp .httpError fa wok s).dom.wordCount = s.wordCount ∧
        (Generate.performGeneration inp .httpError fa wok s).dom.tokensUsed = s.tokensUsed ∧
        (Generate.performGeneration inp .httpError fa wok s).dom.resultsShown = false) ∧
    (∀ (fa wok : Bool) (s : Detect.DomState),
        50 ≤ (jsTrim s.textValue).length →
        (Detect.detectClick .httpError fa wok s).dom.errorText =
          "An error occurred while analyzing the text. Please try again." ∧
        (Detect.detectClick .httpError fa wok s).dom.errorShown = true ∧
        (Detect.detectClick .httpError fa wok s).dom.confidenceValue = s.confidenceValue ∧
        (Detect.detectClick .httpError fa wok s).dom.verdictText = s.verdictText ∧
        (Detect.detectClick .httpError fa wok s).dom.confidenceFillBackground =
          s.confidenceFillBackground ∧
        (Detect.detectClick .httpError fa wok s).dom.analysisDetails = s.analysisDetails ∧
        (Detect.detectClick .httpError fa wok s).dom.resultsShown = false) ∧
    (∀ (inp : Summarize.Inputs) (fa wok : Bool) (s : Summarize.DomState),
        100 ≤ (jsTrim inp.textRaw).length →
        (Summarize.summarizeClick inp .httpError fa wok s).dom.errorText =
          "Failed to generate summary. Please try again." ∧
        (Summarize.summarizeClick inp .httpError fa wok s).dom.errorShown = true ∧
        (Summarize.summarizeClick inp .httpError fa wok s).dom.summaryResult =
          s.summaryResult ∧
        (Summarize.summarizeClick inp .httpError fa wok s).dom.originalWords =
          s.originalWords ∧
        (Summarize.summarizeClick inp .httpError fa wok s).dom.summaryWords =
          s.summaryWords ∧
        (Summarize.summarizeClick inp .httpError fa wok s).dom.compressionRatioText =
          s.compressionRatioText ∧
        (Summarize.summarizeClick inp .httpError fa wok s).dom.resultsShown = false) := by
  refine ⟨?_, ?_, ?_⟩
  · intro inp fa wok s h
    have h1 := jsTrim_ne_empty_of_min (by omega) h
    have h2 : ¬((jsTrim inp.promptRaw).length < 10) := by omega
    simp [Generate.performGeneration, h1, h2, Generate.showError, Generate.hideError]
  · intro fa wok s h
    have h1 := jsTrim_ne_empty_of_min (by omega) h
    have h2 : ¬((jsTrim s.textValue).length < 50) := by omega
    simp [Detect.detectClick, h1, h2, Detect.showError, Detect.hideError]
  · intro inp fa wok s h
    have h1 := jsTrim_ne_empty_of_min (by omega) h
    have h2 : ¬((jsTrim inp.textRaw).length < 100) := by omega
    simp [Summarize.summarizeClick, h1, h2, Summarize.showError, Summarize.hideError]

/-- C2 witness: the amended statement applied to concrete valid inputs in
each flow. -/
theorem C2_httpError_generic_message_and_outputs_unchanged_witness :
    (Generate.performGeneration genInputsOk .httpError true true genStateShown).dom.errorText =
      "Failed to generate text. Please try again." ∧
    (Detect.detectClick .httpError true true detectStartOk).dom.errorText =
      "An error occurred while analyzing the text. Please try again." ∧
    (Summarize.summarizeClick sumInputsOk .httpError true true sumStart).dom.errorText =
      "Failed to generate summary. Please try again." :=
  ⟨(C2_httpError_generic_message_and_outputs_unchanged.1 genInputsOk true true
      genStateShown (by decide)).1,
   (C2_httpError_generic_message_and_outputs_unchanged.2.1 true true
      detectStartOk (by decide)).1,
   (C2_httpError_generic_message_and_outputs_unchanged.2.2 sumInputsOk true true
      sumStart (by decide)).1⟩

/-- C3: after a successful submission each named output element shows the
corresponding response field with the flow's presentation transform:
generation renders `generatedText`, `wordCount`, `tokensUsed` verbatim;
detection renders the confidence rounded to the nearest integer with `%`;
summarization renders `summary`, `originalWords`, `summaryWords` verbatim
and `Math.round(compressionRatio * 100)` with `%`. -/
theorem C3_success_renders_response_fields :
    (∀ (inp : Generate.Inputs) (data : Generate.ResponseData) (fa wok : Bool)
        (s : Generate.DomState),
        10 ≤ (jsTrim inp.promptRaw).length →
        (Generate.performGeneration inp (.success data) fa wok s).dom.generatedText =
          data.generatedText ∧
        (Generate.performGeneration inp (.success data) fa wok s).dom.wordCount =
          toString data.wordCount ∧
        (Generate.performGeneration inp (.success data) fa wok s).dom.tokensUsed =
          toString data.tokensUsed ∧
        (Generate.performGeneration inp (.success data) fa wok s).dom.resultsShown = true) ∧
    (∀ (data : Detect.ResponseData) (fa wok : Bool) (s : Detect.DomState),
        50 ≤ (jsTrim s.textValue).length →
        (Detect.detectClick (.success data) fa wok s).dom.confidenceValue =
          toString (jsRound data.confidence) ++ "%" ∧
        (Detect.detectClick (.success data) fa wok s).dom.resultsShown = true) ∧
    (∀ (inp : Summarize.Inputs) (data : Summarize.ResponseData) (fa wok : Bool)
        (s : Summarize.DomState),
        100 ≤ (jsTrim inp.textRaw).length →
        (Summarize.summarizeClick inp (.success data) fa wok s).dom.summaryResult =
          data.summary ∧
        (Summarize.summarizeClick inp (.success data) fa wok s).dom.originalWords =
          toString data.originalWords ∧
        (Summarize.summarizeClick inp (.success data) fa wok s).dom.summaryWords =
          toString data.summaryWords ∧
        (Summarize.summarizeClick inp (.success data) fa wok s).dom.compressionRatioText =
          toString (jsRound (data.compressionRatio * 100)) ++ "%" ∧
        (Summarize.summarizeClick inp (.success data) fa wok s).dom.resultsShown = true) := by
  refine ⟨?_, ?_, ?_⟩
  · intro inp data fa wok s h
    have h1 := jsTrim_ne_empty_of_min (by omega) h
    have h2 : ¬((jsTrim inp.promptRaw).length < 10) := by omega
    simp [Generate.performGeneration, h1, h2, Generate.displayResults, Generate.hideError]
  · intro data fa wok s h
    have h1 := jsTrim_ne_empty_of_min (by omega) h
    have h2 : ¬((jsTrim s.textValue).length < 50) := by omega
    simp [Detect.detectClick, h1, h2, Detect.displayResults, Detect.hideError]
  · intro inp data fa wok s h
    have h1 := jsTrim_ne_empty_of_min (by omega) h
    have h2 : ¬((jsTrim inp.textRaw).length < 100) := by omega
    simp [Summarize.summarizeClick, h1, h2, Summarize.displayResults, Summarize.hideError]

/-- C3 witness: the rendering equalities at concrete valid inputs and
concrete responses in each flow. -/
theorem C3_success_renders_response_fields_witness :
    (Generate.performGeneration genInputsOk (.success genData) true true
        genStart).dom.generatedText = genData.generatedText ∧
    (Detect.detectClick (.success detectData) true true detectStartOk).dom.confidenceValue =
      toString (jsRound detectData.confidence) ++ "%" ∧
    (Summarize.summarizeClick sumInputsOk (.success sumData) true true
        sumStart).dom.compressionRatioText =
      toString (jsRound (sumData.compressionRatio * 100)) ++ "%" :=
  ⟨(C3_success_renders_response_fields.1 genInputsOk genData true true genStart
      (by decide)).1,
   (C3_success_renders_response_fields.2.1 detectData true true detectStartOk
      (by decide)).1,
   (C3_success_renders_response_fields.2.2 sumInputsOk sumData true true sumStart
      (by decide)).2.2.2.1⟩

/-- C4: the confidence-bar colour is the pure function `colorOf` of the
rounded confidence — green on [0, 30), yellow on [30, 70), red on
[70, 100] — and `displayResults` feeds it nothing but the rounded
confidence, so no other response field or prior page state influences the
chosen colour. -/
theorem C4_confidence_bar_color_bands :
    (∀ c : Int, 0 ≤ c → c < 30 → Detect.colorOf c = "#4ade80") ∧
    (∀ c : Int, 30 ≤ c → c < 70 → Detect.colorOf c = "#fbbf24") ∧
    (∀ c : Int, 70 ≤ c → c ≤ 100 → Detect.colorOf c = "#ef4444") ∧
    (∀ (data : Detect.ResponseData) (s : Detect.DomState),
        (Detect.displayResults data s).confidenceFillBackground =
          Detect.colorOf (jsRound data.confidence)) ∧
    (∀ (d1 d2 : Detect.ResponseData) (s1 s2 : Detect.DomState),
        jsRound d1.confidence = jsRound d2.confidence →
        (Detect.displayResults d1 s1).confidenceFillBackground =
          (Detect.displayResults d2 s2).confidenceFillBackground) := by
  refine ⟨?_, ?_, ?_, ?_, ?_⟩
  · intro c _ hlt
    simp [Detect.colorOf, hlt]
  · intro c hge hlt
    have h1 : ¬(c < 30) := by omega
    simp [Detect.colorOf, h1, hlt]
  · intro c hge _
    have h1 : ¬(c < 30) := by omega
    have h2 : ¬(c < 70) := by omega
    simp [Detect.colorOf, h1, h2]
  · intro data s
    simp [Detect.displayResults]
  · intro d1 d2 s1 s2 h
    simp [Detect.displayResults, h]

/-- C4 witness: the three bands at 10, 45 and 85, the bar-colour equation at
a concrete response, and colour agreement for two responses sharing the
rounded confidence. -/
theorem C4_confidence_bar_color_bands_witness :
    Detect.colorOf 10 = "#4ade80" ∧
    Detect.colorOf 45 = "#fbbf24" ∧
    Detect.colorOf 85 = "#ef4444" ∧
    (Detect.displayResults detectData detectStart).confidenceFillBackground =
      Detect.colorOf (jsRound detectData.confidence) ∧
    (Detect.displayResults ⟨85, true, none, none⟩ detectStart).confidenceFillBackground =
      (Detect.displayResults ⟨85, false, some 12, none⟩
        detectStateDisplayed).confidenceFillBackground :=
  ⟨C4_confidence_bar_color_bands.1 10 (by decide) (by decide),
   C4_confidence_bar_color_bands.2.1 45 (by decide) (by decide),
   C4_confidence_bar_color_bands.2.2.1 85 (by decide) (by decide),
   C4_confidence_bar_color_bands.2.2.2.1 detectData detectStart,
   C4_confidence_bar_color_bands.2.2.2.2 ⟨85, true, none, none⟩
     ⟨85, false, some 12, none⟩ detectStart detectStateDisplayed rfl⟩

/-- C5: for every flow, the DOM state after a run is the same whether the
Firestore audit write succeeds or is rejected (the rejection is caught and
only logged), and likewise whether the firebase client is present at all —
an audit failure never changes a displayed result and never surfaces an
error to the user. -/
theorem C5_audit_failure_invisible :
    (∀ (inp : Generate.Inputs) (outcome : FetchOutcome Generate.ResponseData)
        (fa1 fa2 wok1 wok2 : Bool) (s : Generate.DomState),
        (Generate.performGeneration inp outcome fa1 wok1 s).dom =
        (Generate.performGeneration inp outcome fa2 wok2 s).dom) ∧
    (∀ (outcome : FetchOutcome Detect.ResponseData) (fa1 fa2 wok1 wok2 : Bool)
        (s : Detect.DomState),
        (Detect.detectClick outcome fa1 wok1 s).dom =
        (Detect.detectClick outcome fa2 wok2 s).dom) ∧
    (∀ (inp : Summarize.Inputs) (outcome : FetchOutcome Summarize.ResponseData)
        (fa1 fa2 wok1 wok2 : Bool) (s : Summarize.DomState),
        (Summarize.summarizeClick inp outcome fa1 wok1 s).dom =
        (Summarize.summarizeClick inp outcome fa2 wok2 s).dom) := by
  refine ⟨?_, ?_, ?_⟩
  · intro inp outcome fa1 fa2 wok1 wok2 s
    by_cases h1 : jsTrim inp.promptRaw = "" <;>
      by_cases h2 : (jsTrim inp.promptRaw).length < 10 <;>
        cases outcome <;>
          simp [Generate.performGeneration, h1, h2]
  · intro outcome fa1 fa2 wok1 wok2 s
    by_cases h1 : jsTrim s.textValue = "" <;>
      by_cases h2 : (jsTrim s.textValue).length < 50 <;>
        cases outcome <;>
          simp [Detect.detectClick, h1, h2]
  · intro inp outcome fa1 fa2 wok1 wok2 s
    by_cases h1 : jsTrim inp.textRaw = "" <;>
      by_cases h2 : (jsTrim inp.textRaw).length < 100 <;>
        cases outcome <;>
          simp [Summarize.summarizeClick, h1, h2]

/-- C6 counterexample: on the detection page the copy button does not copy
exactly the displayed result text — it prepends the fixed heading
`AI Detection Results` and a blank line to the analysis details. -/
theorem C6_counterexample_detection_copy_adds_heading :
    (Detect.copyClick true detectStateDisplayed).2 ≠
      some detectStateDisplayed.analysisDetails := by
  decide

/-- C6 (amended): on a successful clipboard write, generation copies
exactly the displayed generated text and summarization exactly the
displayed summary, while detection copies the fixed heading
`AI Detection Results` plus a blank line followed by the displayed
analysis details; in every flow the 2000 ms timer then restores the copy
button's original label and removes the `copied` style. -/
theorem C6_copy_content_and_restore :
    (∀ s : Generate.DomState,
        (Generate.copyClick true s).2 = some s.generatedText ∧
        (Generate.copyTimerFired (Generate.copyClick true s).1).copyBtnText =
          "Copy Text" ∧
        (Generate.copyTimerFired (Generate.copyClick true s).1).copyBtnCopied = false) ∧
    (∀ s : Detect.DomState,
        (Detect.copyClick true s).2 =
          some ("AI Detection Results\n\n" ++ s.analysisDetails) ∧
        (Detect.copyTimerFired (Detect.copyClick true s).1).copyBtnText =
          "Copy Results" ∧
        (Detect.copyTimerFired (Detect.copyClick true s).1).copyBtnCopied = false) ∧
    (∀ s : Summarize.DomState,
        (Summarize.copyClick true s).2 = some s.summaryResult ∧
        (Summarize.copyTimerFired (Summarize.copyClick true s).1).copyBtnText =
          "Copy Summary" ∧
        (Summarize.copyTimerFired (Summarize.copyClick true s).1).copyBtnCopied = false) := by
  refine ⟨?_, ?_, ?_⟩
  · intro s
    simp [Generate.copyClick, Generate.copyTimerFired]
  · intro s
    simp [Detect.copyClick, Detect.copyTimerFired]
  · intro s
    simp [Summarize.copyClick, Summarize.copyTimerFired]

/-- C7: for every successful flow execution with the firebase client
present, the attempted audit write (whether it is stored or rejected)
carries exactly the record whose `collection` is the single `results`
collection, whose `type` matches the flow (`generation`, `detection`,
`summary`), whose `input` is the submitted (trimmed) text — possibly
truncated to its first 500 characters: untruncated for generation,
truncated for detection and summarization — whose `output` is the full
response payload, and whose `timestamp` is the server-assigned sentinel. -/
theorem C7_audit_record_shape :
    (∀ (inp : Generate.Inputs) (data : Generate.ResponseData) (wok : Bool)
        (s : Generate.DomState),
        10 ≤ (jsTrim inp.promptRaw).length →
        (Generate.performGeneration inp (.success data) true wok s).audit.record =
          some ⟨"results", "generation", jsTrim inp.promptRaw, data,
            .serverTimestamp⟩) ∧
    (∀ (data : Detect.ResponseData) (wok : Bool) (s : Detect.DomState),
        50 ≤ (jsTrim s.textValue).length →
        (Detect.detectClick (.success data) true wok s).audit.record =
          some ⟨"results", "detection", (jsTrim s.textValue).take 500, data,
            .serverTimestamp⟩) ∧
    (∀ (inp : Summarize.Inputs) (data : Summarize.ResponseData) (wok : Bool)
        (s : Summarize.DomState),
        100 ≤ (jsTrim inp.textRaw).length →
        (Summarize.summarizeClick inp (.success data) true wok s).audit.record =
          some ⟨"results", "summary", (jsTrim inp.textRaw).take 500, data,
            .serverTimestamp⟩) := by
  refine ⟨?_, ?_, ?_⟩
  · intro inp data wok s h
    have h1 := jsTrim_ne_empty_of_min (by omega) h
    have h2 : ¬((jsTrim inp.promptRaw).length < 10) := by omega
    cases wok <;>
      simp [Generate.performGeneration, h1, h2, Generate.saveToFirestore,
        Generate.AuditOutcome.record]
  · intro data wok s h
    have h1 := jsTrim_ne_empty_of_min (by omega) h
    have h2 : ¬((jsTrim s.textValue).length < 50) := by omega
    cases wok <;>
      simp [Detect.detectClick, h1, h2, Detect.saveToFirestore,
        Detect.AuditOutcome.record]
  · intro inp data wok s h
    have h1 := jsTrim_ne_empty_of_min (by omega) h
    have h2 : ¬((jsTrim inp.textRaw).length < 100) := by omega
    cases wok <;>
      simp [Summarize.summarizeClick, h1, h2, Summarize.saveToFirestore,
        Summarize.AuditOutcome.record]

/-- C7 witness: the audit-record equations at concrete successful
executions of each flow (one with a rejected write, two with stored
writes). -/
theorem C7_audit_record_shape_witness :
    (Generate.performGeneration genInputsOk (.success genData) true false
        genStart).audit.record =
      some ⟨"results", "generation", jsTrim genInputsOk.promptRaw, genData,
        .serverTimestamp⟩ ∧
    (Detect.detectClick (.success detectData) true true
        detectStartOk).audit.record =
      some ⟨"results", "detection", (jsTrim detectStartOk.textValue).take 500,
        detectData, .serverTimestamp⟩ ∧
    (Summarize.summarizeClick sumInputsOk (.success sumData) true true
        sumStart).audit.record =
      some ⟨"results", "summary", (jsTrim sumInputsOk.textRaw).take 500,
        sumData, .serverTimestamp⟩ :=
  ⟨C7_audit_record_shape.1 genInputsOk genData false genStart (by decide),
   C7_audit_record_shape.2.1 detectData true detectStartOk (by decide),
   C7_audit_record_shape.2.2 sumInputsOk sumData true sumStart (by decide)⟩

/-- C8: in the detection file-upload handler a selected file is read into
the text area (updating the character counter) exactly when its MIME type
is `text/plain`; any other type leaves the text area untouched and shows
the inline error instead. -/
theorem C8_file_upload_mime_gate :
    ∀ (file : Detect.JsFile) (s : Detect.DomState),
      (file.type = "text/plain" →
        (Detect.fileChange (some file) s).textValue = file.content ∧
        (Detect.fileChange (some file) s).charCount =
          toString file.content.length ∧
        (Detect.fileChange (some file) s).errorShown = s.errorShown ∧
        (Detect.fileChange (some file) s).errorText = s.errorText) ∧
      (file.type ≠ "text/plain" →
        (Detect.fileChange (some file) s).textValue = s.textValue ∧
        (Detect.fileChange (some file) s).charCount = s.charCount ∧
        (Detect.fileChange (some file) s).errorShown = true ∧
        (Detect.fileChange (some file) s).errorText = "Please upload a .txt file") := by
  intro file s
  constructor
  · intro h
    simp [Detect.fileChange, h]
  · intro h
    simp [Detect.fileChange, h, Detect.showError]

/-- C8 witness: a plain-text file is read into the text area; a PDF is
rejected with the inline error and the text area keeps its contents. -/
theorem C8_file_upload_mime_gate_witness :
    (Detect.fileChange (some ⟨"text/plain", "hello from a file"⟩)
        detectStart).textValue = "hello from a file" ∧
    (Detect.fileChange (some ⟨"application/pdf", "%PDF-1.4"⟩)
        detectStartOk).textValue = detectStartOk.textValue ∧
    (Detect.fileChange (some ⟨"application/pdf", "%PDF-1.4"⟩)
        detectStartOk).errorShown = true :=
  ⟨((C8_file_upload_mime_gate ⟨"text/plain", "hello from a file"⟩
      detectStart).1 (by decide)).1,
   ((C8_file_upload_mime_gate ⟨"application/pdf", "%PDF-1.4"⟩
      detectStartOk).2 (by decide)).1,
   ((C8_file_upload_mime_gate ⟨"application/pdf", "%PDF-1.4"⟩
      detectStartOk).2 (by decide)).2.2.1⟩

/-- C9: for every submission that passed validation and every fetch outcome
(success, non-success HTTP status, or a thrown exception), the `finally`
block leaves the loading indicator hidden (`display = none`) and the flow's
submit button(s) re-enabled. -/
theorem C9_finally_restores_loading_and_buttons :
    (∀ (inp : Generate.Inputs) (outcome : FetchOutcome Generate.ResponseData)
        (fa wok : Bool) (s : Generate.DomState),
        10 ≤ (jsTrim inp.promptRaw).length →
        (Generate.performGeneration inp outcome fa wok s).dom.loadingDisplay = "none" ∧
        (Generate.performGeneration inp outcome fa wok s).dom.generateBtnDisabled = false ∧
        (Generate.performGeneration inp outcome fa wok s).dom.regenerateBtnDisabled = false) ∧
    (∀ (outcome : FetchOutcome Detect.ResponseData) (fa wok : Bool)
        (s : Detect.DomState),
        50 ≤ (jsTrim s.textValue).length →
        (Detect.detectClick outcome fa wok s).dom.loadingDisplay = "none" ∧
        (Detect.detectClick outcome fa wok s).dom.detectBtnDisabled = false) ∧
    (∀ (inp : Summarize.Inputs) (outcome : FetchOutcome Summarize.ResponseData)
        (fa wok : Bool) (s : Summarize.DomState),
        100 ≤ (jsTrim inp.textRaw).length →
        (Summarize.summarizeClick inp outcome fa wok s).dom.loadingDisplay = "none" ∧
        (Summarize.summarizeClick inp outcome fa wok s).dom.summarizeBtnDisabled = false) := by
  refine ⟨?_, ?_, ?_⟩
  · intro inp outcome fa wok s h
    have h1 := jsTrim_ne_empty_of_min (by omega) h
    have h2 : ¬((jsTrim inp.promptRaw).length < 10) := by omega
    cases outcome <;>
      simp [Generate.performGeneration, h1, h2, Generate.showError,
        Generate.displayResults, Generate.hideError]
  · intro outcome fa wok s h
    have h1 := jsTrim_ne_empty_of_min (by omega) h
    have h2 : ¬((jsTrim s.textValue).length < 50) := by omega
    cases outcome <;>
      simp [Detect.detectClick, h1, h2, Detect.showError,
        Detect.displayResults, Detect.hideError]
  · intro inp outcome fa wok s h
    have h1 := jsTrim_ne_empty_of_min (by omega) h
    have h2 : ¬((jsTrim inp.textRaw).length < 100) := by omega
    cases outcome <;>
      simp [Summarize.summarizeClick, h1, h2, Summarize.showError,
        Summarize.displayResults, Summarize.hideError]

/-- C9 witness: the restoration at concrete valid submissions, one per
fetch outcome across the three flows. -/
theorem C9_finally_restores_loading_and_buttons_witness :
    (Generate.performGeneration genInputsOk (.success genData) true true
        genStart).dom.loadingDisplay = "none" ∧
    (Detect.detectClick .httpError true true detectStartOk).dom.loadingDisplay = "none" ∧
    (Summarize.summarizeClick sumInputsOk .netError true true
        sumStart).dom.loadingDisplay = "none" :=
  ⟨(C9_finally_restores_loading_and_buttons.1 genInputsOk (.success genData)
      true true genStart (by decide)).1,
   (C9_finally_restores_loading_and_buttons.2.1 .httpError true true
      detectStartOk (by decide)).1,
   (C9_finally_restores_loading_and_buttons.2.2 sumInputsOk .netError true true
      sumStart (by decide)).1⟩

/-- C10: every flow trims the input before validating and dispatching: the
minimum-length check reads the trimmed text (so a raw value meeting the
minimum only through surrounding whitespace is rejected), the `text`
(resp. `prompt`) field of the request body is the trimmed text, and the
audit record's input is derived from the trimmed text. -/
theorem C10_trim_before_validation_and_dispatch :
    (∀ (inp : Generate.Inputs) (outcome : FetchOutcome Generate.ResponseData)
        (fa wok : Bool) (s : Generate.DomState),
        ((jsTrim inp.promptRaw).length < 10 →
          (Generate.performGeneration inp outcome fa wok s).request = none) ∧
        (10 ≤ (jsTrim inp.promptRaw).length →
          (Generate.performGeneration inp outcome fa wok s).request =
            some ⟨jsTrim inp.promptRaw, inp.tone, inp.maxLength, inp.temperature⟩)) ∧
    (∀ (inp : Generate.Inputs) (data : Generate.ResponseData) (wok : Bool)
        (s : Generate.DomState),
        10 ≤ (jsTrim inp.promptRaw).length →
        (Generate.performGeneration inp (.success data) true wok s).audit.record.map
          Generate.AuditRecord.input = some (jsTrim inp.promptRaw)) ∧
    (∀ (outcome : FetchOutcome Detect.ResponseData) (fa wok : Bool)
        (s : Detect.DomState),
        ((jsTrim s.textValue).length < 50 →
          (Detect.detectClick outcome fa wok s).request = none) ∧
        (50 ≤ (jsTrim s.textValue).length →
          (Detect.detectClick outcome fa wok s).request =
            some ⟨jsTrim s.textValue⟩)) ∧
    (∀ (data : Detect.ResponseData) (wok : Bool) (s : Detect.DomState),
        50 ≤ (jsTrim s.textValue).length →
        (Detect.detectClick (.success data) true wok s).audit.record.map
          Detect.AuditRecord.input = some ((jsTrim s.textValue).take 500)) ∧
    (∀ (inp : Summarize.Inputs) (outcome : FetchOutcome Summarize.ResponseData)
        (fa wok : Bool) (s : Summarize.DomState),
        ((jsTrim inp.textRaw).length < 100 →
          (Summarize.summarizeClick inp outcome fa wok s).request = none) ∧
        (100 ≤ (jsTrim inp.textRaw).length →
          (Summarize.summarizeClick inp outcome fa wok s).request =
            some ⟨jsTrim inp.textRaw, inp.ratio, inp.format⟩)) ∧
    (∀ (inp : Summarize.Inputs) (data : Summarize.ResponseData) (wok : Bool)
        (s : Summarize.DomState),
        100 ≤ (jsTrim inp.textRaw).length →
        (Summarize.summarizeClick inp (.success data) true wok s).audit.record.map
          Summarize.AuditRecord.input = some ((jsTrim inp.textRaw).take 500)) := by
  refine ⟨?_, ?_, ?_, ?_, ?_, ?_⟩
  · intro inp outcome fa wok s
    constructor
    · intro h
      by_cases h1 : jsTrim inp.promptRaw = ""
      · simp [Generate.performGeneration, h1]
      · simp [Generate.performGeneration, h1, h]
    · intro h
      have h1 := jsTrim_ne_empty_of_min (by omega) h
      have h2 : ¬((jsTrim inp.promptRaw).length < 10) := by omega
      cases outcome <;> simp [Generate.performGeneration, h1, h2]
  · intro inp data wok s h
    have h1 := jsTrim_ne_empty_of_min (by omega) h
    have h2 : ¬((jsTrim inp.promptRaw).length < 10) := by omega
    cases wok <;>
      simp [Generate.performGeneration, h1, h2, Generate.saveToFirestore,
        Generate.AuditOutcome.record]
  · intro outcome fa wok s
    constructor
    · intro h
      by_cases h1 : jsTrim s.textValue = ""
      · simp [Detect.detectClick, h1]
      · simp [Detect.detectClick, h1, h]
    · intro h
      have h1 := jsTrim_ne_empty_of_min (by omega) h
      have h2 : ¬((jsTrim s.textValue).length < 50) := by omega
      cases outcome <;> simp [Detect.detectClick, h1, h2]
  · intro data wok s h
    have h1 := jsTrim_ne_empty_of_min (by omega) h
    have h2 : ¬((jsTrim s.textValue).length < 50) := by omega
    cases wok <;>
      simp [Detect.detectClick, h1, h2, Detect.saveToFirestore,
        Detect.AuditOutcome.record]
  · intro inp outcome fa wok s
    constructor
    · intro h
      by_cases h1 : jsTrim inp.textRaw = ""
      · simp [Summarize.summarizeClick, h1]
      · simp [Summarize.summarizeClick, h1, h]
    · intro h
      have h1 := jsTrim_ne_empty_of_min (by omega) h
      have h2 : ¬((jsTrim inp.textRaw).length < 100) := by omega
      cases outcome <;> simp [Summarize.summarizeClick, h1, h2]
  · intro inp data wok s h
    have h1 := jsTrim_ne_empty_of_min (by omega) h
    have h2 : ¬((jsTrim inp.textRaw).length < 100) := by omega
    cases wok <;>
      simp [Summarize.summarizeClick, h1, h2, Summarize.saveToFirestore,
        Summarize.AuditOutcome.record]

/-- C10 witness: a 13-character raw prompt that trims to 2 characters is
rejected; a whitespace-padded valid prompt is dispatched trimmed; a valid
detection text is dispatched trimmed. -/
theorem C10_trim_before_validation_and_dispatch_witness :
    (Generate.performGeneration genInputsPadded .httpError true true genStart).request =
      none ∧
    (Generate.performGeneration genInputsOk .httpError true true genStart).request =
      some ⟨jsTrim genInputsOk.promptRaw, genInputsOk.tone, genInputsOk.maxLength,
        genInputsOk.temperature⟩ ∧
    (Detect.detectClick .httpError true true detectStartOk).request =
      some ⟨jsTrim detectStartOk.textValue⟩ :=
  ⟨(C10_trim_before_validation_and_dispatch.1 genInputsPadded .httpError true true
      genStart).1 (by decide),
   (C10_trim_before_validation_and_dispatch.1 genInputsOk .httpError true true
      genStart).2 (by decide),
   (C10_trim_before_validation_and_dispatch.2.2.1 .httpError true true
      detectStartOk).2 (by decide)⟩
